import Mathlib

/-!
# Goldfish real-time clock (`src/devices/rtc-goldfish.c`)

A shallow embedding of the register file of the Goldfish RTC device model:
the device state `struct rtc_goldfish_data`, the two MMIO entry points
`rtc_goldfish_mmio_read` and `rtc_goldfish_mmio_write`, and the constructor
`rtc_goldfish_init`.

Conventions of the embedding.

* Machine integers are natural numbers; truncation to a width is written
  `% 2 ^ w` at the place where the C code truncates.
* The host clock `time(NULL)` is an explicit argument `now : Int` (a `time_t`,
  whole seconds since the epoch).
* The `void* data` buffer of an access is a list of bytes.
* The outward call `plic_send_irq(dev->machine, rtc->plic, rtc->irq)` is
  recorded as a pair `(plic, irq)` in the list `irqs` of the result.
-/

namespace RtcGoldfish

/-! ## Register map (lines 24-33) -/

def RTC_TIME_LOW : Nat := 0x0
def RTC_TIME_HIGH : Nat := 0x4
def RTC_ALARM_LOW : Nat := 0x8
def RTC_ALARM_HIGH : Nat := 0xC
def RTC_IRQ_ENABLED : Nat := 0x10
def RTC_ALARM_CLEAR : Nat := 0x14
def RTC_ALARM_STATUS : Nat := 0x18
def RTC_IRQ_CLEAR : Nat := 0x1C

def RTC_REG_SIZE : Nat := 0x20

/-! ## Device state (lines 35-42) -/

/-- The record `struct rtc_goldfish_data`. The pointer `plic` is `none` when it is
`NULL` and `some h` for a handle `h`; the three `uint32_t` fields are natural
numbers, kept below `2 ^ 32` by every write (see `rtc_wf`). -/
structure rtc_goldfish_data where
  plic : Option Nat
  irq : Nat
  alarm_low : Nat
  alarm_high : Nat
  irq_enabled : Bool
  alarm_enabled : Bool
  deriving DecidableEq, Repr

/-- Range of the `uint32_t` fields of `struct rtc_goldfish_data`. -/
def rtc_wf (rtc : rtc_goldfish_data) : Prop :=
  rtc.irq < 2 ^ 32 ∧ rtc.alarm_low < 2 ^ 32 ∧ rtc.alarm_high < 2 ^ 32

instance (rtc : rtc_goldfish_data) : Decidable (rtc_wf rtc) := by
  unfold rtc_wf; infer_instance

/-! ## Helpers of the missing headers -/

/-- The four bytes of the low 32 bits of `val`, least significant byte first. -/
def uint32_le_bytes (val : Nat) : List Nat :=
  [val % 256, val / 2 ^ 8 % 256, val / 2 ^ 16 % 256, val / 2 ^ 24 % 256]

/-- Modelled from the spec: `read_uint32_le` of the missing `mem_ops.h`, the
32-bit value held little-endian in the first four bytes of the buffer (the
spec: accesses carry a "4-byte little-endian value"). A byte the buffer does
not have reads as 0. -/
def read_uint32_le (data : List Nat) : Nat :=
  data.getD 0 0 % 256 + data.getD 1 0 % 256 * 2 ^ 8
    + data.getD 2 0 % 256 * 2 ^ 16 + data.getD 3 0 % 256 * 2 ^ 24

/-- Modelled from the spec: `write_uint32_le` of the missing `mem_ops.h`, which
stores the low 32 bits of `val` little-endian in the first four bytes of the
buffer and leaves the rest of the buffer as it was. -/
def write_uint32_le (data : List Nat) (val : Nat) : List Nat :=
  uint32_le_bytes val ++ data.drop 4

/-- The C library `memset(data, c, size)`: the first `size` bytes become the
byte `c`, the rest of the buffer is kept. -/
def memset (data : List Nat) (c : Nat) (size : Nat) : List Nat :=
  List.replicate size (c % 256) ++ data.drop size

/-- Modelled from the spec: the conversion of a `uint32_t` to the `bool` of the
missing headers (C99 `stdbool.h`), which is `value != 0` (the spec:
"set `irqEnabled = (value != 0)`"). -/
def uint32_to_bool (value : Nat) : Bool :=
  value != 0

/-- The expression `time(NULL) * 1000000000ULL` (lines 47 and 77): the
`time_t` value is converted to `unsigned long long` and the product is taken
modulo `2 ^ 64`. -/
def timer64 (now : Int) : Nat :=
  ((now % 2 ^ 64).toNat * 1000000000) % 2 ^ 64

/-! ## MMIO entry points -/

/-- Result of one MMIO access: the returned flag, the device state after the
access, the access buffer after the access, and the calls of `plic_send_irq`
made during it, each as `(plic, irq)`. -/
structure mmio_result where
  ret : Bool
  rtc : rtc_goldfish_data
  data : List Nat
  irqs : List (Nat × Nat)
  deriving DecidableEq, Repr

/-- The function `rtc_goldfish_mmio_read` (lines 44-72). -/
def rtc_goldfish_mmio_read (rtc : rtc_goldfish_data) (now : Int) (data : List Nat)
    (offset : Nat) (size : Nat) : mmio_result :=
  let t64 := timer64 now
  let data1 :=
    if offset = RTC_TIME_LOW then write_uint32_le data t64
    else if offset = RTC_TIME_HIGH then write_uint32_le data (t64 >>> 32)
    else if offset = RTC_ALARM_LOW then write_uint32_le data rtc.alarm_low
    else if offset = RTC_ALARM_HIGH then write_uint32_le data rtc.alarm_high
    else if offset = RTC_IRQ_ENABLED then write_uint32_le data rtc.irq_enabled.toNat
    else if offset = RTC_ALARM_STATUS then write_uint32_le data rtc.alarm_enabled.toNat
    else memset data 0 size
  { ret := true, rtc := rtc, data := data1, irqs := [] }

/-- The function `rtc_goldfish_mmio_write` (lines 74-103): the `switch` on the
offset, then the alarm check that runs after every write. The argument
`size` is unused (`UNUSED(size)`). -/
def rtc_goldfish_mmio_write (rtc : rtc_goldfish_data) (now : Int) (data : List Nat)
    (offset : Nat) (_size : Nat) : mmio_result :=
  let t64 := timer64 now
  let rtc1 : rtc_goldfish_data :=
    if offset = RTC_ALARM_LOW then { rtc with alarm_low := read_uint32_le data }
    else if offset = RTC_ALARM_HIGH then { rtc with alarm_high := read_uint32_le data }
    else if offset = RTC_IRQ_ENABLED then
      { rtc with irq_enabled := uint32_to_bool (read_uint32_le data) }
    else if offset = RTC_ALARM_CLEAR then { rtc with alarm_enabled := false }
    else rtc
  let alarm64 := rtc1.alarm_low ||| ((rtc1.alarm_high <<< 32) % 2 ^ 64)
  if rtc1.alarm_enabled && rtc1.irq_enabled && decide (t64 ≤ alarm64) then
    { ret := true
      rtc := { rtc1 with alarm_enabled := false }
      data := data
      irqs := match rtc1.plic with
        | some p => [(p, rtc1.irq)]
        | none => [] }
  else
    { ret := true, rtc := { rtc1 with alarm_enabled := true }, data := data, irqs := [] }

/-! ## Construction (lines 109-124) -/

/-- The fields of `rvvm_mmio_dev_t` that `rtc_goldfish_init` sets; `end_addr`
stands for the field `end`. -/
structure rvvm_mmio_dev_t where
  begin_addr : Nat
  end_addr : Nat
  min_op_size : Nat
  max_op_size : Nat
  data : rtc_goldfish_data
  deriving DecidableEq, Repr

/-- Modelled from the spec: the typedef `paddr_t` of a header that is not under
`src/`, the unsigned machine integer that holds a physical address ("base
address" in the spec). The spec gives it no width; 64 bits are taken. -/
def PADDR_BITS : Nat := 64

/-- The function `rtc_goldfish_init` (lines 109-124): the state is allocated
zeroed by `safe_calloc`, then `plic` and `irq` are set, and the region is
registered. The sum `base_addr + RTC_REG_SIZE` is taken in `paddr_t`, so it
wraps modulo `2 ^ PADDR_BITS`. The device-tree part (lines 125-139) does not
touch the state. -/
def rtc_goldfish_init (base_addr : Nat) (intc_data : Option Nat) (irq : Nat) :
    rvvm_mmio_dev_t :=
  let ptr : rtc_goldfish_data :=
    { plic := intc_data, irq := irq, alarm_low := 0, alarm_high := 0,
      irq_enabled := false, alarm_enabled := false }
  { begin_addr := base_addr
    end_addr := (base_addr + RTC_REG_SIZE) % 2 ^ PADDR_BITS
    min_op_size := 4
    max_op_size := 4
    data := ptr }

/-! ## Sequences of writes -/

/-- One guest write as the bus hands it to the device: the host time at which
it is served, the buffer, the offset and the size. -/
structure mmio_write_op where
  now : Int
  data : List Nat
  offset : Nat
  size : Nat
  deriving DecidableEq, Repr

/-- The results of a sequence of writes served one after the other, each on the
state the previous one left. -/
def run_writes (rtc : rtc_goldfish_data) : List mmio_write_op → List mmio_result
  | [] => []
  | w :: ws =>
    let r := rtc_goldfish_mmio_write rtc w.now w.data w.offset w.size
    r :: run_writes r.rtc ws

/-- The state a sequence of writes ends in. -/
def final_state (rtc : rtc_goldfish_data) : List mmio_write_op → rtc_goldfish_data
  | [] => rtc
  | w :: ws => final_state (rtc_goldfish_mmio_write rtc w.now w.data w.offset w.size).rtc ws

/-- All calls of `plic_send_irq` made by a sequence of writes, in order. -/
def all_irqs (rs : List mmio_result) : List (Nat × Nat) :=
  (rs.map fun r => r.irqs).flatten

/-- The 32-bit value a guest obtains from a read of `offset` at host time `now`. -/
def read_reg (rtc : rtc_goldfish_data) (now : Int) (offset : Nat) : Nat :=
  read_uint32_le (rtc_goldfish_mmio_read rtc now [0, 0, 0, 0] offset 4).data

/-! ## Specification side of the write -/

/-- Spec side of the write (section 4.1 of the specification, "Write"): the
update the offset alone makes, before the alarm-evaluation rule runs.
`0x08`: `alarmLow = value`; `0x0C`: `alarmHigh = value`; `0x10`:
`irqEnabled = (value != 0)`; `0x14`: `alarmPending = false`; any other offset:
no change. The fields `alarmLow`, `alarmHigh`, `irqEnabled`, `alarmPending`,
`interruptLine`, `irqNumber` of the specification are the fields `alarm_low`,
`alarm_high`, `irq_enabled`, `alarm_enabled`, `plic`, `irq` of the record. -/
def spec_write_update (s : rtc_goldfish_data) (offset : Nat) (value : Nat) :
    rtc_goldfish_data :=
  if offset = 0x08 then { s with alarm_low := value }
  else if offset = 0x0C then { s with alarm_high := value }
  else if offset = 0x10 then { s with irq_enabled := decide (value ≠ 0) }
  else if offset = 0x14 then { s with alarm_enabled := false }
  else s

/-- Spec side of the interrupt assertion: the call made when the rule fires,
none when no controller handle is attached. -/
def spec_assert (s : rtc_goldfish_data) : List (Nat × Nat) :=
  match s.plic with
  | some h => [(h, s.irq)]
  | none => []

/-! ## Byte and arithmetic lemmas -/

theorem read_uint32_le_lt (data : List Nat) : read_uint32_le data < 2 ^ 32 := by
  unfold read_uint32_le
  omega

theorem read_uint32_le_bytes (val : Nat) :
    read_uint32_le (uint32_le_bytes val) = val % 2 ^ 32 := by
  simp only [read_uint32_le, uint32_le_bytes, List.getD_cons_zero, List.getD_cons_succ]
  omega

theorem read_write_uint32_le (data : List Nat) (val : Nat) :
    read_uint32_le (write_uint32_le data val) = val % 2 ^ 32 := by
  simp only [read_uint32_le, write_uint32_le, uint32_le_bytes, List.cons_append,
    List.getD_cons_zero, List.getD_cons_succ]
  omega

theorem alarm64_eq (lo hi : Nat) (hlo : lo < 2 ^ 32) (hhi : hi < 2 ^ 32) :
    lo ||| ((hi <<< 32) % 2 ^ 64) = lo + 2 ^ 32 * hi := by
  have h1 : hi <<< 32 = 2 ^ 32 * hi := by rw [Nat.shiftLeft_eq, Nat.mul_comm]
  have h2 : 2 ^ 32 * hi < 2 ^ 64 := by omega
  rw [h1, Nat.mod_eq_of_lt h2, Nat.lor_comm, ← Nat.mul_add_lt_is_or hlo hi]
  omega

theorem timer64_eq (now : Int) : timer64 now = ((now * 1000000000) % 2 ^ 64).toNat := by
  unfold timer64
  have h : (0 : Int) ≤ now % 2 ^ 64 := Int.emod_nonneg _ (by norm_num)
  zify
  rw [Int.toNat_of_nonneg h, Int.toNat_of_nonneg (Int.emod_nonneg _ (by norm_num))]
  norm_num [Int.mul_emod, Int.emod_emod_of_dvd]

theorem switch_eq_spec (s : rtc_goldfish_data) (offset : Nat) (data : List Nat) :
    (if offset = RTC_ALARM_LOW then { s with alarm_low := read_uint32_le data }
    else if offset = RTC_ALARM_HIGH then { s with alarm_high := read_uint32_le data }
    else if offset = RTC_IRQ_ENABLED then
      { s with irq_enabled := uint32_to_bool (read_uint32_le data) }
    else if offset = RTC_ALARM_CLEAR then { s with alarm_enabled := false }
    else s) = spec_write_update s offset (read_uint32_le data) := by
  unfold spec_write_update uint32_to_bool RTC_ALARM_LOW RTC_ALARM_HIGH RTC_IRQ_ENABLED
    RTC_ALARM_CLEAR
  split_ifs <;> first | rfl | (by_cases h : read_uint32_le data = 0 <;> simp [bne, h])

theorem spec_write_update_wf (s : rtc_goldfish_data) (offset value : Nat)
    (hs : rtc_wf s) (hv : value < 2 ^ 32) : rtc_wf (spec_write_update s offset value) := by
  unfold spec_write_update
  obtain ⟨h1, h2, h3⟩ := hs
  split_ifs <;> exact ⟨h1, by first | exact hv | exact h2, by first | exact hv | exact h3⟩

theorem spec_write_update_plic (s : rtc_goldfish_data) (offset value : Nat) :
    (spec_write_update s offset value).plic = s.plic ∧
    (spec_write_update s offset value).irq = s.irq := by
  unfold spec_write_update
  split_ifs <;> exact ⟨rfl, rfl⟩

/-- The write in terms of the state after the switch. -/
theorem write_eq (s : rtc_goldfish_data) (now : Int) (data : List Nat) (offset size : Nat) :
    rtc_goldfish_mmio_write s now data offset size =
      if (spec_write_update s offset (read_uint32_le data)).alarm_enabled = true ∧
          (spec_write_update s offset (read_uint32_le data)).irq_enabled = true ∧
          timer64 now ≤ (spec_write_update s offset (read_uint32_le data)).alarm_low |||
            (((spec_write_update s offset (read_uint32_le data)).alarm_high <<< 32) % 2 ^ 64)
      then
        { ret := true
          rtc := { spec_write_update s offset (read_uint32_le data) with alarm_enabled := false }
          data := data
          irqs := spec_assert s }
      else
        { ret := true
          rtc := { spec_write_update s offset (read_uint32_le data) with alarm_enabled := true }
          data := data
          irqs := [] } := by
  unfold rtc_goldfish_mmio_write
  simp only [switch_eq_spec]
  have hp := spec_write_update_plic s offset (read_uint32_le data)
  simp only [spec_assert, hp.1, hp.2, Bool.and_eq_true, decide_eq_true_eq, and_assoc]

theorem read_reg_alarm_status (s : rtc_goldfish_data) (now : Int) :
    read_reg s now RTC_ALARM_STATUS = s.alarm_enabled.toNat := by
  unfold read_reg rtc_goldfish_mmio_read
  simp only [RTC_ALARM_STATUS, RTC_TIME_LOW, RTC_TIME_HIGH, RTC_ALARM_LOW, RTC_ALARM_HIGH,
    RTC_IRQ_ENABLED]
  norm_num [read_write_uint32_le]
  cases s.alarm_enabled <;> decide

theorem read_reg_irq_enabled (s : rtc_goldfish_data) (now : Int) :
    read_reg s now RTC_IRQ_ENABLED = s.irq_enabled.toNat := by
  unfold read_reg rtc_goldfish_mmio_read
  simp only [RTC_ALARM_STATUS, RTC_TIME_LOW, RTC_TIME_HIGH, RTC_ALARM_LOW, RTC_ALARM_HIGH,
    RTC_IRQ_ENABLED]
  norm_num [read_write_uint32_le]
  cases s.irq_enabled <;> decide

theorem read_reg_alarm_low (s : rtc_goldfish_data) (now : Int) :
    read_reg s now RTC_ALARM_LOW = s.alarm_low % 2 ^ 32 := by
  unfold read_reg rtc_goldfish_mmio_read
  simp only [RTC_ALARM_STATUS, RTC_TIME_LOW, RTC_TIME_HIGH, RTC_ALARM_LOW, RTC_ALARM_HIGH,
    RTC_IRQ_ENABLED]
  norm_num [read_write_uint32_le]

theorem read_reg_alarm_high (s : rtc_goldfish_data) (now : Int) :
    read_reg s now RTC_ALARM_HIGH = s.alarm_high % 2 ^ 32 := by
  unfold read_reg rtc_goldfish_mmio_read
  simp only [RTC_ALARM_STATUS, RTC_TIME_LOW, RTC_TIME_HIGH, RTC_ALARM_LOW, RTC_ALARM_HIGH,
    RTC_IRQ_ENABLED]
  norm_num [read_write_uint32_le]

/-- Effect of one write on the fields, in terms of the state after the switch. -/
theorem write_fields (s : rtc_goldfish_data) (now : Int) (data : List Nat) (offset size : Nat) :
    (rtc_goldfish_mmio_write s now data offset size).rtc.plic = s.plic ∧
    (rtc_goldfish_mmio_write s now data offset size).rtc.irq = s.irq ∧
    (rtc_goldfish_mmio_write s now data offset size).rtc.alarm_low =
      (spec_write_update s offset (read_uint32_le data)).alarm_low ∧
    (rtc_goldfish_mmio_write s now data offset size).rtc.alarm_high =
      (spec_write_update s offset (read_uint32_le data)).alarm_high ∧
    (rtc_goldfish_mmio_write s now data offset size).rtc.irq_enabled =
      (spec_write_update s offset (read_uint32_le data)).irq_enabled := by
  have hp := spec_write_update_plic s offset (read_uint32_le data)
  rw [write_eq]
  split_ifs <;> exact ⟨hp.1, hp.2, rfl, rfl, rfl⟩

/-- A write that leaves `irq_enabled` false asserts nothing and sets the flag. -/
theorem write_disarmed (s : rtc_goldfish_data) (now : Int) (data : List Nat)
    (offset size : Nat)
    (h : (rtc_goldfish_mmio_write s now data offset size).rtc.irq_enabled = false) :
    (rtc_goldfish_mmio_write s now data offset size).irqs = [] ∧
    (rtc_goldfish_mmio_write s now data offset size).rtc.alarm_enabled = true := by
  have hf := (write_fields s now data offset size).2.2.2.2
  rw [hf] at h
  rw [write_eq]
  rw [if_neg (by simp [h])]
  exact ⟨rfl, rfl⟩

/-- A write made on a cleared flag at an offset that does not touch it, or a
write to `RTC_ALARM_CLEAR`, asserts nothing and sets the flag. -/
theorem write_unarmed (s : rtc_goldfish_data) (now : Int) (data : List Nat)
    (offset size : Nat) (h : s.alarm_enabled = false ∨ offset = RTC_ALARM_CLEAR) :
    (rtc_goldfish_mmio_write s now data offset size).irqs = [] ∧
    (rtc_goldfish_mmio_write s now data offset size).rtc.alarm_enabled = true := by
  have h1 : (spec_write_update s offset (read_uint32_le data)).alarm_enabled = false := by
    unfold spec_write_update
    rcases h with h | h
    · split_ifs <;> simp [h]
    · subst h; simp [RTC_ALARM_CLEAR]
  rw [write_eq, if_neg (by simp [h1])]
  exact ⟨rfl, rfl⟩

theorem mem_run_writes (s : rtc_goldfish_data) (ws : List mmio_write_op) (r : mmio_result)
    (h : r ∈ run_writes s ws) :
    ∃ (s1 : rtc_goldfish_data) (w : mmio_write_op),
      r = rtc_goldfish_mmio_write s1 w.now w.data w.offset w.size := by
  induction ws generalizing s with
  | nil => simp [run_writes] at h
  | cons w ws ih =>
    simp only [run_writes, List.mem_cons] at h
    rcases h with h | h
    · exact ⟨s, w, h⟩
    · exact ih _ h

theorem read_uint32_le_bytes_of_lt (v : Nat) (hv : v < 2 ^ 32) :
    read_uint32_le (uint32_le_bytes v) = v := by
  rw [read_uint32_le_bytes, Nat.mod_eq_of_lt hv]

theorem write_alarm_low_eq (s : rtc_goldfish_data) (now : Int) (v size : Nat)
    (hv : v < 2 ^ 32) :
    rtc_goldfish_mmio_write s now (uint32_le_bytes v) RTC_ALARM_LOW size =
      if s.alarm_enabled = true ∧ s.irq_enabled = true ∧
          timer64 now ≤ v ||| ((s.alarm_high <<< 32) % 2 ^ 64)
      then ⟨true, { s with alarm_low := v, alarm_enabled := false }, uint32_le_bytes v,
        spec_assert s⟩
      else ⟨true, { s with alarm_low := v, alarm_enabled := true }, uint32_le_bytes v, []⟩ := by
  rw [write_eq, read_uint32_le_bytes_of_lt v hv]
  simp [spec_write_update, RTC_ALARM_LOW]

theorem write_alarm_high_eq (s : rtc_goldfish_data) (now : Int) (v size : Nat)
    (hv : v < 2 ^ 32) :
    rtc_goldfish_mmio_write s now (uint32_le_bytes v) RTC_ALARM_HIGH size =
      if s.alarm_enabled = true ∧ s.irq_enabled = true ∧
          timer64 now ≤ s.alarm_low ||| ((v <<< 32) % 2 ^ 64)
      then ⟨true, { s with alarm_high := v, alarm_enabled := false }, uint32_le_bytes v,
        spec_assert s⟩
      else ⟨true, { s with alarm_high := v, alarm_enabled := true }, uint32_le_bytes v, []⟩ := by
  rw [write_eq, read_uint32_le_bytes_of_lt v hv]
  simp [spec_write_update, RTC_ALARM_HIGH]

theorem write_irq_enabled_eq (s : rtc_goldfish_data) (now : Int) (v size : Nat)
    (hv : v < 2 ^ 32) :
    rtc_goldfish_mmio_write s now (uint32_le_bytes v) RTC_IRQ_ENABLED size =
      if s.alarm_enabled = true ∧ v ≠ 0 ∧
          timer64 now ≤ s.alarm_low ||| ((s.alarm_high <<< 32) % 2 ^ 64)
      then ⟨true, { s with irq_enabled := decide (v ≠ 0), alarm_enabled := false },
        uint32_le_bytes v, spec_assert s⟩
      else ⟨true, { s with irq_enabled := decide (v ≠ 0), alarm_enabled := true },
        uint32_le_bytes v, []⟩ := by
  rw [write_eq, read_uint32_le_bytes_of_lt v hv]
  simp [spec_write_update, RTC_IRQ_ENABLED]

/-- Every write either fires (one call, flag cleared) or sets the flag. -/
theorem write_cases (s : rtc_goldfish_data) (now : Int) (data : List Nat) (offset size : Nat) :
    ((rtc_goldfish_mmio_write s now data offset size).irqs = spec_assert s ∧
      (rtc_goldfish_mmio_write s now data offset size).rtc.alarm_enabled = false) ∨
    ((rtc_goldfish_mmio_write s now data offset size).irqs = [] ∧
      (rtc_goldfish_mmio_write s now data offset size).rtc.alarm_enabled = true) := by
  rw [write_eq]
  split_ifs
  · exact Or.inl ⟨rfl, rfl⟩
  · exact Or.inr ⟨rfl, rfl⟩

theorem shiftLeft_32_mod (v : Nat) (hv : v < 2 ^ 32) : (v <<< 32) % 2 ^ 64 = v <<< 32 := by
  apply Nat.mod_eq_of_lt
  rw [Nat.shiftLeft_eq]
  omega

theorem lor_shiftLeft_32 (lo hi : Nat) (hlo : lo < 2 ^ 32) :
    lo ||| (hi <<< 32) = lo + 2 ^ 32 * hi := by
  rw [Nat.shiftLeft_eq, Nat.mul_comm, Nat.lor_comm, ← Nat.mul_add_lt_is_or hlo hi]
  omega

theorem read_reg_time_low (s : rtc_goldfish_data) (now : Int) :
    read_reg s now RTC_TIME_LOW = timer64 now % 2 ^ 32 := by
  unfold read_reg rtc_goldfish_mmio_read
  simp only [RTC_TIME_LOW]
  norm_num [read_write_uint32_le]

theorem read_reg_time_high (s : rtc_goldfish_data) (now : Int) :
    read_reg s now RTC_TIME_HIGH = timer64 now / 2 ^ 32 := by
  unfold read_reg rtc_goldfish_mmio_read
  simp only [RTC_TIME_LOW, RTC_TIME_HIGH]
  norm_num [read_write_uint32_le, Nat.shiftRight_eq_div_pow]
  have h : timer64 now < 2 ^ 64 := by
    unfold timer64
    exact Nat.mod_lt _ (by norm_num)
  omega

/-! ## Runs of writes -/

/-- A write at an offset without a case in the switch, on a device with a handle
and armed interrupts, at a host time not past the alarm: the flag flips, and the
call is made exactly when the flag was set. -/
theorem write_default_armed (s : rtc_goldfish_data) (now : Int) (data : List Nat)
    (offset size h : Nat) (hp : s.plic = some h) (hen : s.irq_enabled = true)
    (h8 : offset ≠ 0x08) (hC : offset ≠ 0x0C) (h10 : offset ≠ 0x10) (h14 : offset ≠ 0x14)
    (hfut : timer64 now ≤ s.alarm_low ||| ((s.alarm_high <<< 32) % 2 ^ 64)) :
    rtc_goldfish_mmio_write s now data offset size =
      ⟨true, { s with alarm_enabled := !s.alarm_enabled }, data,
        if s.alarm_enabled = true then [(h, s.irq)] else []⟩ := by
  have hu : spec_write_update s offset (read_uint32_le data) = s := by
    unfold spec_write_update
    rw [if_neg h8, if_neg hC, if_neg h10, if_neg h14]
  rw [write_eq, hu]
  by_cases ha : s.alarm_enabled = true
  · rw [if_pos ⟨ha, hen, hfut⟩, if_pos ha, ha]
    simp [spec_assert, hp]
  · rw [if_neg (fun hx => ha hx.1), if_neg ha]
    simp only [Bool.not_eq_true] at ha
    rw [ha]
    rfl

/-- Run of writes at offsets without a case on an armed device whose alarm is not
reached: the calls made and the final state, by the value of the flag at the
start. -/
theorem armed_run (h irq lo hi : Nat) (ws : List mmio_write_op)
    (hws : ∀ w ∈ ws, (w.offset ≠ 0x08 ∧ w.offset ≠ 0x0C ∧ w.offset ≠ 0x10 ∧ w.offset ≠ 0x14) ∧
      timer64 w.now ≤ lo ||| ((hi <<< 32) % 2 ^ 64)) (b : Bool) :
    all_irqs (run_writes ⟨some h, irq, lo, hi, true, b⟩ ws) =
      List.replicate (if b = true then (ws.length + 1) / 2 else ws.length / 2) (h, irq) ∧
    final_state ⟨some h, irq, lo, hi, true, b⟩ ws =
      ⟨some h, irq, lo, hi, true, if ws.length % 2 = 0 then b else !b⟩ := by
  induction ws generalizing b with
  | nil => cases b <;> exact ⟨rfl, rfl⟩
  | cons w ws ih =>
    obtain ⟨⟨h8, hC, h10, h14⟩, hfut⟩ := hws w (List.mem_cons_self w ws)
    have hw := write_default_armed ⟨some h, irq, lo, hi, true, b⟩ w.now w.data w.offset w.size h
      rfl rfl h8 hC h10 h14 hfut
    obtain ⟨ih1, ih2⟩ := ih (fun x hx => hws x (List.mem_cons_of_mem w hx)) (!b)
    simp only [run_writes, final_state, all_irqs, List.map_cons, List.flatten_cons, hw] at ih1 ih2 ⊢
    rw [ih1, ih2]
    constructor
    · cases b
      · simp
      · have e : (ws.length + 1 + 1) / 2 = ws.length / 2 + 1 := by omega
        simp [e, List.replicate_succ]
    · have hpar : (ws.length + 1) % 2 = 0 ↔ ¬ ws.length % 2 = 0 := by omega
      by_cases hp : ws.length % 2 = 0
      · simp [hp, hpar]
      · simp [hp, hpar]

/-- Two results that follow each other in a run: both are results of a write, the
second one on the state the first one left. -/
theorem run_writes_consecutive (s : rtc_goldfish_data) (ws : List mmio_write_op) (i : Nat)
    (r1 r2 : mmio_result) (h1 : (run_writes s ws)[i]? = some r1)
    (h2 : (run_writes s ws)[i + 1]? = some r2) :
    (∃ (s1 : rtc_goldfish_data) (w1 : mmio_write_op),
      r1 = rtc_goldfish_mmio_write s1 w1.now w1.data w1.offset w1.size) ∧
    ∃ w2 : mmio_write_op, r2 = rtc_goldfish_mmio_write r1.rtc w2.now w2.data w2.offset w2.size := by
  induction ws generalizing s i with
  | nil => simp [run_writes] at h1
  | cons w ws ih =>
    cases i with
    | zero =>
      simp only [run_writes, List.getElem?_cons_zero, Option.some.injEq] at h1
      simp only [run_writes, List.getElem?_cons_succ] at h2
      subst h1
      cases ws with
      | nil => simp [run_writes] at h2
      | cons w2 ws2 =>
        simp only [run_writes, List.getElem?_cons_zero, Option.some.injEq] at h2
        exact ⟨⟨s, w, rfl⟩, w2, h2.symm⟩
    | succ k =>
      simp only [run_writes, List.getElem?_cons_succ] at h1 h2
      exact ih _ k h1 h2

/-! ## C1: alarm-evaluation rule of a write -/

/-- Claim C1: for every state (with 32-bit fields), offset, written 32-bit value and
host time, let `s1` be the state after the update of the offset alone
(`spec_write_update`), `t` the host seconds times `10 ^ 9` modulo `2 ^ 64` and
`alarm = s1.alarm_low + 2 ^ 32 * s1.alarm_high`. If `s1.alarm_enabled`,
`s1.irq_enabled` and `t ≤ alarm`, the write makes the one call of
`plic_send_irq` with the configured handle and IRQ number (none when no handle is
attached) and ends in `s1` with `alarm_enabled = false`; in every other case it
makes no call and ends in `s1` with `alarm_enabled = true`. -/
theorem C1_write_alarm_rule (s : rtc_goldfish_data) (now : Int) (offset value size : Nat)
    (hs : rtc_wf s) (hv : value < 2 ^ 32) :
    let s1 := spec_write_update s offset value
    let t := ((now * 1000000000) % 2 ^ 64).toNat
    let alarm := s1.alarm_low + 2 ^ 32 * s1.alarm_high
    let r := rtc_goldfish_mmio_write s now (uint32_le_bytes value) offset size
    (s1.alarm_enabled = true ∧ s1.irq_enabled = true ∧ t ≤ alarm →
      r.irqs = spec_assert s ∧ r.rtc = { s1 with alarm_enabled := false }) ∧
    (¬ (s1.alarm_enabled = true ∧ s1.irq_enabled = true ∧ t ≤ alarm) →
      r.irqs = [] ∧ r.rtc = { s1 with alarm_enabled := true }) := by
  intro s1 t alarm r
  have hval : read_uint32_le (uint32_le_bytes value) = value := by
    rw [read_uint32_le_bytes, Nat.mod_eq_of_lt hv]
  have hwf := spec_write_update_wf s offset value hs hv
  have hr : r = rtc_goldfish_mmio_write s now (uint32_le_bytes value) offset size := rfl
  rw [write_eq, hval, alarm64_eq _ _ hwf.2.1 hwf.2.2, timer64_eq] at hr
  constructor
  · intro h
    rw [if_pos h] at hr
    rw [hr]
    exact ⟨rfl, rfl⟩
  · intro h
    rw [if_neg h] at hr
    rw [hr]
    exact ⟨rfl, rfl⟩

/-- Instance of C1: an armed device with the alarm at `2 ^ 32` ns, written at
offset `0x1C` at host second 1, asserts IRQ 5 on handle 7 and clears the flag. -/
theorem C1_write_alarm_rule_witness :
    rtc_wf ⟨some 7, 5, 0, 1, true, true⟩ ∧ (0 : Nat) < 2 ^ 32 ∧
    (rtc_goldfish_mmio_write ⟨some 7, 5, 0, 1, true, true⟩ 1 (uint32_le_bytes 0) 0x1C 4).irqs
      = [(7, 5)] ∧
    (rtc_goldfish_mmio_write ⟨some 7, 5, 0, 1, true, true⟩ 1 (uint32_le_bytes 0) 0x1C 4).rtc
      = ⟨some 7, 5, 0, 1, true, false⟩ :=
  ⟨by decide, by decide,
    (C1_write_alarm_rule ⟨some 7, 5, 0, 1, true, true⟩ 1 0x1C 0 4 (by decide) (by decide)).1
      (by decide)⟩

/-! ## C2: enable, program the alarm, write once more -/

/-- Counterexample to C2 as stated: on a fresh device with handle 7 and IRQ 5, at
host second 1700000000, with `L = H = 0xFFFFFFFF` (so that `now ≤ alarm`), the
writes IRQ_ENABLED = 1, ALARM_LOW = L, ALARM_HIGH = H and one more write at `0x1C`
do not give both exactly one assertion and ALARM_STATUS = 0: the assertion is made
by the ALARM_HIGH write and the write after it sets the flag again. -/
theorem C2_counterexample :
    timer64 1700000000 ≤ 0xFFFFFFFF ||| (0xFFFFFFFF <<< 32) ∧
    ¬ (all_irqs (run_writes (rtc_goldfish_init 0x101000 (some 7) 5).data
        [⟨1700000000, uint32_le_bytes 1, RTC_IRQ_ENABLED, 4⟩,
         ⟨1700000000, uint32_le_bytes 0xFFFFFFFF, RTC_ALARM_LOW, 4⟩,
         ⟨1700000000, uint32_le_bytes 0xFFFFFFFF, RTC_ALARM_HIGH, 4⟩,
         ⟨1700000000, uint32_le_bytes 0, RTC_IRQ_CLEAR, 4⟩]) = [(7, 5)] ∧
      read_reg (final_state (rtc_goldfish_init 0x101000 (some 7) 5).data
        [⟨1700000000, uint32_le_bytes 1, RTC_IRQ_ENABLED, 4⟩,
         ⟨1700000000, uint32_le_bytes 0xFFFFFFFF, RTC_ALARM_LOW, 4⟩,
         ⟨1700000000, uint32_le_bytes 0xFFFFFFFF, RTC_ALARM_HIGH, 4⟩,
         ⟨1700000000, uint32_le_bytes 0, RTC_IRQ_CLEAR, 4⟩]) 1700000000 RTC_ALARM_STATUS = 0) := by
  decide

/-- Claim C2 (amended): on a freshly attached device with a controller handle, for
all 32-bit `L`, `H` and host times with `now ≤ L | (H << 32)` at the ALARM_HIGH
write, the writes IRQ_ENABLED = 1, ALARM_LOW = L, ALARM_HIGH = H followed by one
write at any offset with any buffer make either exactly one assertion call, and
then ALARM_STATUS reads 1 afterwards, or exactly two, and then ALARM_STATUS reads 0
afterwards; every call carries the configured handle and IRQ number. When moreover
`L < now` at the ALARM_LOW write, there is exactly one call, made by the
ALARM_HIGH write, and ALARM_STATUS reads 1 afterwards. -/
theorem C2_enable_then_alarm_then_write (base h irq L H : Nat) (t1 t2 t3 t4 t5 : Int)
    (d4 : List Nat) (off4 sz4 : Nat) (hL : L < 2 ^ 32) (hH : H < 2 ^ 32)
    (hfut : timer64 t3 ≤ L ||| (H <<< 32)) :
    let s0 := (rtc_goldfish_init base (some h) irq).data
    let ws : List mmio_write_op :=
      [⟨t1, uint32_le_bytes 1, RTC_IRQ_ENABLED, 4⟩, ⟨t2, uint32_le_bytes L, RTC_ALARM_LOW, 4⟩,
       ⟨t3, uint32_le_bytes H, RTC_ALARM_HIGH, 4⟩, ⟨t4, d4, off4, sz4⟩]
    ((all_irqs (run_writes s0 ws) = [(h, irq)] ∧
        read_reg (final_state s0 ws) t5 RTC_ALARM_STATUS = 1) ∨
      (all_irqs (run_writes s0 ws) = [(h, irq), (h, irq)] ∧
        read_reg (final_state s0 ws) t5 RTC_ALARM_STATUS = 0)) ∧
    (L < timer64 t2 →
      (run_writes s0 ws).map (fun r => r.irqs) = [[], [], [(h, irq)], []] ∧
      read_reg (final_state s0 ws) t5 RTC_ALARM_STATUS = 1) := by
  intro s0 ws
  have e1 : rtc_goldfish_mmio_write s0 t1 (uint32_le_bytes 1) RTC_IRQ_ENABLED 4 =
      ⟨true, ⟨some h, irq, 0, 0, true, true⟩, uint32_le_bytes 1, []⟩ := by
    rw [write_irq_enabled_eq _ _ _ _ (by norm_num)]
    simp [s0, rtc_goldfish_init]
  have hz : (0 <<< 32) % 2 ^ 64 = 0 := by decide
  rw [← shiftLeft_32_mod H hH] at hfut
  simp only [ws, s0, run_writes, final_state, all_irqs, e1, read_reg_alarm_status,
    List.map_cons, List.map_nil]
  by_cases h2 : timer64 t2 ≤ L
  · -- the ALARM_LOW write fires
    have e2 : rtc_goldfish_mmio_write ⟨some h, irq, 0, 0, true, true⟩ t2 (uint32_le_bytes L)
        RTC_ALARM_LOW 4 = ⟨true, ⟨some h, irq, L, 0, true, false⟩, uint32_le_bytes L,
          [(h, irq)]⟩ := by
      rw [write_alarm_low_eq _ _ _ _ hL]
      simp [hz, h2, spec_assert]
    have e3 : rtc_goldfish_mmio_write ⟨some h, irq, L, 0, true, false⟩ t3 (uint32_le_bytes H)
        RTC_ALARM_HIGH 4 = ⟨true, ⟨some h, irq, L, H, true, true⟩, uint32_le_bytes H, []⟩ := by
      rw [write_alarm_high_eq _ _ _ _ hH]
      simp
    simp only [e2, e3]
    refine ⟨?_, fun hlt => absurd h2 (by omega)⟩
    rcases write_cases ⟨some h, irq, L, H, true, true⟩ t4 d4 off4 sz4 with ⟨hi, ha⟩ | ⟨hi, ha⟩
    · right
      rw [hi, ha]
      simp [spec_assert]
    · left
      rw [hi, ha]
      simp
  · -- the ALARM_LOW write does not fire, the ALARM_HIGH write does
    have e2 : rtc_goldfish_mmio_write ⟨some h, irq, 0, 0, true, true⟩ t2 (uint32_le_bytes L)
        RTC_ALARM_LOW 4 = ⟨true, ⟨some h, irq, L, 0, true, true⟩, uint32_le_bytes L, []⟩ := by
      rw [write_alarm_low_eq _ _ _ _ hL]
      simp [hz, h2]
    have e3 : rtc_goldfish_mmio_write ⟨some h, irq, L, 0, true, true⟩ t3 (uint32_le_bytes H)
        RTC_ALARM_HIGH 4 = ⟨true, ⟨some h, irq, L, H, true, false⟩, uint32_le_bytes H,
          [(h, irq)]⟩ := by
      rw [write_alarm_high_eq _ _ _ _ hH, if_pos ⟨rfl, rfl, hfut⟩]
      rfl
    obtain ⟨hi, ha⟩ := write_unarmed ⟨some h, irq, L, H, true, false⟩ t4 d4 off4 sz4
      (Or.inl rfl)
    simp only [e2, e3, hi, ha]
    simp

/-- Instance of the amended C2 at host second 1700000000 with
`L = H = 0xFFFFFFFF`: one call, made by the third write, and ALARM_STATUS reads 1. -/
theorem C2_enable_then_alarm_then_write_witness :
    (0xFFFFFFFF : Nat) < 2 ^ 32 ∧
    timer64 1700000000 ≤ 0xFFFFFFFF ||| (0xFFFFFFFF <<< 32) ∧
    (0xFFFFFFFF : Nat) < timer64 1700000000 ∧
    (run_writes (rtc_goldfish_init 0x101000 (some 7) 5).data
        [⟨1700000000, uint32_le_bytes 1, RTC_IRQ_ENABLED, 4⟩,
         ⟨1700000000, uint32_le_bytes 0xFFFFFFFF, RTC_ALARM_LOW, 4⟩,
         ⟨1700000000, uint32_le_bytes 0xFFFFFFFF, RTC_ALARM_HIGH, 4⟩,
         ⟨1700000000, uint32_le_bytes 0, RTC_IRQ_CLEAR, 4⟩]).map (fun r => r.irqs)
      = [[], [], [(7, 5)], []] ∧
    read_reg (final_state (rtc_goldfish_init 0x101000 (some 7) 5).data
        [⟨1700000000, uint32_le_bytes 1, RTC_IRQ_ENABLED, 4⟩,
         ⟨1700000000, uint32_le_bytes 0xFFFFFFFF, RTC_ALARM_LOW, 4⟩,
         ⟨1700000000, uint32_le_bytes 0xFFFFFFFF, RTC_ALARM_HIGH, 4⟩,
         ⟨1700000000, uint32_le_bytes 0, RTC_IRQ_CLEAR, 4⟩]) 1700000000 RTC_ALARM_STATUS = 1 :=
  ⟨by decide, by decide, by decide,
    (C2_enable_then_alarm_then_write 0x101000 7 5 0xFFFFFFFF 0xFFFFFFFF 1700000000 1700000000
      1700000000 1700000000 1700000000 (uint32_le_bytes 0) RTC_IRQ_CLEAR 4 (by decide)
      (by decide) (by decide)).2 (by decide)⟩

/-! ## C3: write to ALARM_CLEAR -/

/-- Counterexample to C3 as stated: a fresh device with handle 7 and IRQ 5 is, after
one write to `0x1C`, in the state with `alarm_enabled = true` and everything else
zero; on that state a write to ALARM_CLEAR (`0x14`) at host second 1700000000
followed by a read of ALARM_STATUS (`0x18`) does not return 0. -/
theorem C3_counterexample :
    final_state (rtc_goldfish_init 0x101000 (some 7) 5).data
      [⟨1700000000, uint32_le_bytes 0, RTC_IRQ_CLEAR, 4⟩] = ⟨some 7, 5, 0, 0, false, true⟩ ∧
    ¬ (read_reg (rtc_goldfish_mmio_write ⟨some 7, 5, 0, 0, false, true⟩ 1700000000
        (uint32_le_bytes 0) RTC_ALARM_CLEAR 4).rtc 1700000000 RTC_ALARM_STATUS = 0) := by
  decide

/-- Claim C3 (amended): the write to ALARM_CLEAR (`0x14`) clears the flag in the
switch only, and the alarm-evaluation rule that runs after every write sets it
again: for every state, host time, buffer and size, the write makes no assertion
call and ends with `alarm_enabled = true`, so that a read of ALARM_STATUS (`0x18`)
right after it returns 1. -/
theorem C3_alarm_clear_status_reads_one (s : rtc_goldfish_data) (now now1 : Int)
    (data : List Nat) (size : Nat) :
    (rtc_goldfish_mmio_write s now data RTC_ALARM_CLEAR size).irqs = [] ∧
    (rtc_goldfish_mmio_write s now data RTC_ALARM_CLEAR size).rtc.alarm_enabled = true ∧
    read_reg (rtc_goldfish_mmio_write s now data RTC_ALARM_CLEAR size).rtc now1
      RTC_ALARM_STATUS = 1 := by
  obtain ⟨hi, ha⟩ := write_unarmed s now data RTC_ALARM_CLEAR size (Or.inr rfl)
  refine ⟨hi, ha, ?_⟩
  rw [read_reg_alarm_status, ha]
  rfl

/-! ## C4: write to an offset without a register -/

/-- Counterexample to C4 as stated: on an armed device (handle 7, IRQ 5, alarm
`0xFFFFFFFFFFFFFFFF`, flag set) a write to IRQ_CLEAR (`0x1C`) at host second
1700000000 does not leave the state as it was with no assertion: it asserts the
interrupt and clears `alarm_enabled`. -/
theorem C4_counterexample :
    ¬ ((rtc_goldfish_mmio_write ⟨some 7, 5, 0xFFFFFFFF, 0xFFFFFFFF, true, true⟩ 1700000000
          (uint32_le_bytes 0) RTC_IRQ_CLEAR 4).rtc
        = ⟨some 7, 5, 0xFFFFFFFF, 0xFFFFFFFF, true, true⟩ ∧
      (rtc_goldfish_mmio_write ⟨some 7, 5, 0xFFFFFFFF, 0xFFFFFFFF, true, true⟩ 1700000000
          (uint32_le_bytes 0) RTC_IRQ_CLEAR 4).irqs = []) := by
  decide

/-- Claim C4 (amended): for every state (with 32-bit fields), host time and
buffer, a write to an offset other than `0x08`, `0x0C`, `0x10` and `0x14` leaves
`plic`, `irq`, `alarm_low`, `alarm_high` and `irq_enabled` as they were, and
`alarm_enabled` is set by the alarm-evaluation rule: if `alarm_enabled`,
`irq_enabled` and `now ≤ alarm` hold before the write, the interrupt is asserted
(when a handle is attached) and `alarm_enabled` becomes false; otherwise no
interrupt is asserted and `alarm_enabled` becomes true. -/
theorem C4_write_without_register (s : rtc_goldfish_data) (now : Int) (data : List Nat)
    (offset size : Nat) (hs : rtc_wf s) (h8 : offset ≠ 0x08) (hC : offset ≠ 0x0C)
    (h10 : offset ≠ 0x10) (h14 : offset ≠ 0x14) :
    let r := rtc_goldfish_mmio_write s now data offset size
    r.rtc.plic = s.plic ∧ r.rtc.irq = s.irq ∧ r.rtc.alarm_low = s.alarm_low ∧
    r.rtc.alarm_high = s.alarm_high ∧ r.rtc.irq_enabled = s.irq_enabled ∧
    (s.alarm_enabled = true ∧ s.irq_enabled = true ∧
        timer64 now ≤ s.alarm_low ||| (s.alarm_high <<< 32) →
      r.irqs = spec_assert s ∧ r.rtc.alarm_enabled = false) ∧
    (¬ (s.alarm_enabled = true ∧ s.irq_enabled = true ∧
        timer64 now ≤ s.alarm_low ||| (s.alarm_high <<< 32)) →
      r.irqs = [] ∧ r.rtc.alarm_enabled = true) := by
  intro r
  have hu : spec_write_update s offset (read_uint32_le data) = s := by
    unfold spec_write_update
    rw [if_neg h8, if_neg hC, if_neg h10, if_neg h14]
  have hr : r = rtc_goldfish_mmio_write s now data offset size := rfl
  rw [write_eq, hu, shiftLeft_32_mod _ hs.2.2] at hr
  by_cases hf : s.alarm_enabled = true ∧ s.irq_enabled = true ∧
      timer64 now ≤ s.alarm_low ||| (s.alarm_high <<< 32)
  · rw [if_pos hf] at hr
    rw [hr]
    exact ⟨rfl, rfl, rfl, rfl, rfl, fun _ => ⟨rfl, rfl⟩, fun h => absurd hf h⟩
  · rw [if_neg hf] at hr
    rw [hr]
    exact ⟨rfl, rfl, rfl, rfl, rfl, fun h => absurd h hf, fun _ => ⟨rfl, rfl⟩⟩

/-- Instance of the amended C4: the write to `0x1C` on the armed device asserts
IRQ 5 on handle 7 and clears the flag. -/
theorem C4_write_without_register_witness :
    rtc_wf ⟨some 7, 5, 0xFFFFFFFF, 0xFFFFFFFF, true, true⟩ ∧
    (rtc_goldfish_mmio_write ⟨some 7, 5, 0xFFFFFFFF, 0xFFFFFFFF, true, true⟩ 1700000000
        (uint32_le_bytes 0) 0x1C 4).irqs = [(7, 5)] ∧
    (rtc_goldfish_mmio_write ⟨some 7, 5, 0xFFFFFFFF, 0xFFFFFFFF, true, true⟩ 1700000000
        (uint32_le_bytes 0) 0x1C 4).rtc.alarm_enabled = false :=
  ⟨by decide,
    (C4_write_without_register ⟨some 7, 5, 0xFFFFFFFF, 0xFFFFFFFF, true, true⟩ 1700000000
      (uint32_le_bytes 0) 0x1C 4 (by decide) (by decide) (by decide) (by decide)
      (by decide)).2.2.2.2.2.1 (by decide)⟩

/-! ## C5: alarm round trip -/

/-- Claim C5: for every state, every pair of 32-bit values `L`, `H` and all host
times, after a write of `L` to ALARM_LOW followed by a write of `H` to ALARM_HIGH a
read of ALARM_LOW puts the four little-endian bytes of `L` in the buffer and a read
of ALARM_HIGH those of `H`; the values read are exactly `L` and `H`, whether or
not either write fires the alarm. -/
theorem C5_alarm_round_trip (s : rtc_goldfish_data) (L H : Nat) (t1 t2 t3 t4 : Int)
    (buf : List Nat) (hL : L < 2 ^ 32) (hH : H < 2 ^ 32) :
    let s2 := (rtc_goldfish_mmio_write
      (rtc_goldfish_mmio_write s t1 (uint32_le_bytes L) RTC_ALARM_LOW 4).rtc
      t2 (uint32_le_bytes H) RTC_ALARM_HIGH 4).rtc
    (rtc_goldfish_mmio_read s2 t3 buf RTC_ALARM_LOW 4).data = uint32_le_bytes L ++ buf.drop 4 ∧
    (rtc_goldfish_mmio_read s2 t4 buf RTC_ALARM_HIGH 4).data = uint32_le_bytes H ++ buf.drop 4 ∧
    read_reg s2 t3 RTC_ALARM_LOW = L ∧ read_reg s2 t4 RTC_ALARM_HIGH = H := by
  intro s2
  have f1 := write_fields s t1 (uint32_le_bytes L) RTC_ALARM_LOW 4
  have f2 := write_fields (rtc_goldfish_mmio_write s t1 (uint32_le_bytes L) RTC_ALARM_LOW 4).rtc
    t2 (uint32_le_bytes H) RTC_ALARM_HIGH 4
  have hlo : s2.alarm_low = L := by
    rw [f2.2.2.1]
    simp only [spec_write_update, RTC_ALARM_HIGH]
    norm_num
    rw [f1.2.2.1]
    simp only [spec_write_update, RTC_ALARM_LOW]
    norm_num
    exact read_uint32_le_bytes_of_lt L hL
  have hhi : s2.alarm_high = H := by
    rw [f2.2.2.2.1]
    simp only [spec_write_update, RTC_ALARM_HIGH]
    norm_num
    exact read_uint32_le_bytes_of_lt H hH
  refine ⟨?_, ?_, ?_, ?_⟩
  · simp [rtc_goldfish_mmio_read, RTC_ALARM_LOW, RTC_TIME_LOW, RTC_TIME_HIGH, write_uint32_le,
      hlo]
  · simp [rtc_goldfish_mmio_read, RTC_ALARM_LOW, RTC_ALARM_HIGH, RTC_TIME_LOW, RTC_TIME_HIGH,
      write_uint32_le, hhi]
  · rw [read_reg_alarm_low, hlo, Nat.mod_eq_of_lt hL]
  · rw [read_reg_alarm_high, hhi, Nat.mod_eq_of_lt hH]

/-- Instance of C5 with `L = 0x89ABCDEF` and `H = 0x01234567`. -/
theorem C5_alarm_round_trip_witness :
    (0x89ABCDEF : Nat) < 2 ^ 32 ∧ (0x01234567 : Nat) < 2 ^ 32 ∧
    (rtc_goldfish_mmio_read (rtc_goldfish_mmio_write
        (rtc_goldfish_mmio_write ⟨some 7, 5, 0, 0, true, true⟩ 1 (uint32_le_bytes 0x89ABCDEF)
          RTC_ALARM_LOW 4).rtc
        1 (uint32_le_bytes 0x01234567) RTC_ALARM_HIGH 4).rtc 1 [0, 0, 0, 0] RTC_ALARM_LOW 4).data
      = [0xEF, 0xCD, 0xAB, 0x89] :=
  ⟨by decide, by decide,
    (C5_alarm_round_trip ⟨some 7, 5, 0, 0, true, true⟩ 0x89ABCDEF 0x01234567 1 1 1 1
      [0, 0, 0, 0] (by decide) (by decide)).1⟩

/-! ## C6: IRQ_ENABLED is a boolean -/

/-- Claim C6: for every state and every 32-bit value `v`, after a write of `v` to
IRQ_ENABLED the field `irq_enabled` equals `v ≠ 0`, and a read of IRQ_ENABLED
returns 1 if `v ≠ 0` and 0 if `v = 0`, as a 4-byte little-endian value. -/
theorem C6_irq_enabled_boolean (s : rtc_goldfish_data) (now now1 : Int) (v size : Nat)
    (buf : List Nat) (hv : v < 2 ^ 32) :
    let r := rtc_goldfish_mmio_write s now (uint32_le_bytes v) RTC_IRQ_ENABLED size
    r.rtc.irq_enabled = decide (v ≠ 0) ∧
    read_reg r.rtc now1 RTC_IRQ_ENABLED = (if v = 0 then 0 else 1) ∧
    (rtc_goldfish_mmio_read r.rtc now1 buf RTC_IRQ_ENABLED 4).data =
      uint32_le_bytes (if v = 0 then 0 else 1) ++ buf.drop 4 := by
  intro r
  have hf : r.rtc.irq_enabled = decide (v ≠ 0) := by
    have h := (write_fields s now (uint32_le_bytes v) RTC_IRQ_ENABLED size).2.2.2.2
    rw [read_uint32_le_bytes_of_lt v hv] at h
    rw [show r.rtc.irq_enabled = _ from h]
    simp [spec_write_update, RTC_IRQ_ENABLED]
  refine ⟨hf, ?_, ?_⟩
  · rw [read_reg_irq_enabled, hf]
    by_cases h0 : v = 0 <;> simp [h0]
  · simp only [rtc_goldfish_mmio_read, RTC_IRQ_ENABLED, RTC_TIME_LOW, RTC_TIME_HIGH,
      RTC_ALARM_LOW, RTC_ALARM_HIGH, write_uint32_le, hf]
    by_cases h0 : v = 0 <;> simp [h0]

/-- Instance of C6 with `v = 0x100`, whose low byte is zero: IRQ_ENABLED reads 1. -/
theorem C6_irq_enabled_boolean_witness :
    (0x100 : Nat) < 2 ^ 32 ∧
    (rtc_goldfish_mmio_write ⟨some 7, 5, 0, 0, false, false⟩ 1 (uint32_le_bytes 0x100)
      RTC_IRQ_ENABLED 4).rtc.irq_enabled = true ∧
    read_reg (rtc_goldfish_mmio_write ⟨some 7, 5, 0, 0, false, false⟩ 1 (uint32_le_bytes 0x100)
      RTC_IRQ_ENABLED 4).rtc 1 RTC_IRQ_ENABLED = 1 :=
  ⟨by decide,
    (C6_irq_enabled_boolean ⟨some 7, 5, 0, 0, false, false⟩ 1 1 0x100 4 [] (by decide)).1,
    (C6_irq_enabled_boolean ⟨some 7, 5, 0, 0, false, false⟩ 1 1 0x100 4 [] (by decide)).2.1⟩

/-! ## C7: disarmed interrupts -/

/-- Claim C7: for every state and every sequence of writes in which `irq_enabled`
is false after each write, no write of the sequence asserts an interrupt, whatever
the alarm fields and the host times are, and ALARM_STATUS reads 1 after each of
those writes. -/
theorem C7_disarmed_never_asserts (s : rtc_goldfish_data) (ws : List mmio_write_op)
    (h : ∀ r ∈ run_writes s ws, r.rtc.irq_enabled = false) :
    ∀ r ∈ run_writes s ws,
      r.irqs = [] ∧ ∀ now : Int, read_reg r.rtc now RTC_ALARM_STATUS = 1 := by
  intro r hr
  obtain ⟨s1, w, rfl⟩ := mem_run_writes s ws r hr
  obtain ⟨hi, ha⟩ := write_disarmed s1 w.now w.data w.offset w.size (h _ hr)
  refine ⟨hi, fun now => ?_⟩
  rw [read_reg_alarm_status, ha]
  rfl

/-- Instance of C7: from an armed device, IRQ_ENABLED = 0 followed by writes of
`0xFFFFFFFF` to ALARM_LOW and ALARM_HIGH at host second 1700000000. -/
theorem C7_disarmed_never_asserts_witness :
    (∀ r ∈ run_writes ⟨some 7, 5, 0, 0, true, true⟩
        [⟨1700000000, uint32_le_bytes 0, RTC_IRQ_ENABLED, 4⟩,
         ⟨1700000000, uint32_le_bytes 0xFFFFFFFF, RTC_ALARM_LOW, 4⟩,
         ⟨1700000000, uint32_le_bytes 0xFFFFFFFF, RTC_ALARM_HIGH, 4⟩],
      r.rtc.irq_enabled = false) ∧
    (∀ r ∈ run_writes ⟨some 7, 5, 0, 0, true, true⟩
        [⟨1700000000, uint32_le_bytes 0, RTC_IRQ_ENABLED, 4⟩,
         ⟨1700000000, uint32_le_bytes 0xFFFFFFFF, RTC_ALARM_LOW, 4⟩,
         ⟨1700000000, uint32_le_bytes 0xFFFFFFFF, RTC_ALARM_HIGH, 4⟩],
      r.irqs = [] ∧ ∀ now : Int, read_reg r.rtc now RTC_ALARM_STATUS = 1) :=
  ⟨by decide, C7_disarmed_never_asserts _ _ (by decide)⟩

/-! ## C8: time registers -/

/-- Claim C8: for every state and every host epoch second `t` with `0 ≤ t` and
`t * 10 ^ 9 < 2 ^ 64`, the value `TIME_LOW | (TIME_HIGH << 32)` read at host time
`t` equals `t * 10 ^ 9`; its quotient by `10 ^ 9` is `t` and its remainder modulo
`10 ^ 9` is 0. The state does not enter the value. -/
theorem C8_time_registers (s : rtc_goldfish_data) (t : Int) (h0 : 0 ≤ t)
    (hlt : t * 1000000000 < 2 ^ 64) :
    ((read_reg s t RTC_TIME_LOW ||| (read_reg s t RTC_TIME_HIGH <<< 32) : Nat) : Int)
      = t * 1000000000 ∧
    ((read_reg s t RTC_TIME_LOW ||| (read_reg s t RTC_TIME_HIGH <<< 32) : Nat) : Int)
      / 1000000000 = t ∧
    (read_reg s t RTC_TIME_LOW ||| (read_reg s t RTC_TIME_HIGH <<< 32)) % 1000000000 = 0 := by
  have hv : read_reg s t RTC_TIME_LOW ||| (read_reg s t RTC_TIME_HIGH <<< 32) = timer64 t := by
    rw [lor_shiftLeft_32 _ _ (by rw [read_reg_time_low]; exact Nat.mod_lt _ (by norm_num)),
      read_reg_time_low, read_reg_time_high]
    omega
  have ht : (timer64 t : Int) = t * 1000000000 := by
    rw [timer64_eq, Int.toNat_of_nonneg (Int.emod_nonneg _ (by norm_num))]
    exact Int.emod_eq_of_lt (by positivity) hlt
  rw [hv, ht]
  refine ⟨rfl, ?_, ?_⟩
  · exact Int.mul_ediv_cancel t (by norm_num)
  · have h3 : ((timer64 t % 1000000000 : Nat) : Int) = 0 := by
      push_cast
      rw [ht]
      exact Int.mul_emod_left t 1000000000
    exact_mod_cast h3

/-- Instance of C8 at host second 1700000000. -/
theorem C8_time_registers_witness :
    (0 : Int) ≤ 1700000000 ∧ (1700000000 : Int) * 1000000000 < 2 ^ 64 ∧
    read_reg ⟨some 7, 5, 1, 2, true, false⟩ 1700000000 RTC_TIME_LOW
      ||| (read_reg ⟨some 7, 5, 1, 2, true, false⟩ 1700000000 RTC_TIME_HIGH <<< 32)
      = 1700000000000000000 :=
  ⟨by decide, by decide, by
    exact_mod_cast (C8_time_registers ⟨some 7, 5, 1, 2, true, false⟩ 1700000000 (by decide)
      (by decide)).1⟩

/-! ## C9: reads without a register -/

/-- Claim C9: for every state, host time, buffer and size, a read at an offset
other than `0x00`, `0x04`, `0x08`, `0x0C`, `0x10` and `0x18` zeroes the first
`size` bytes of the buffer; for a 4-byte access the buffer is all zero and the
value read is 0. -/
theorem C9_read_without_register (s : rtc_goldfish_data) (now : Int) (data : List Nat)
    (offset size : Nat) (h0 : offset ≠ 0x00) (h4 : offset ≠ 0x04) (h8 : offset ≠ 0x08)
    (hC : offset ≠ 0x0C) (h10 : offset ≠ 0x10) (h18 : offset ≠ 0x18) :
    (rtc_goldfish_mmio_read s now data offset size).data
      = List.replicate size 0 ++ data.drop size ∧
    (rtc_goldfish_mmio_read s now data offset size).data.take size = List.replicate size 0 ∧
    (rtc_goldfish_mmio_read s now (data.take 4) offset 4).data = [0, 0, 0, 0] ∧
    read_reg s now offset = 0 := by
  have hd : ∀ (d : List Nat) (n : Nat),
      (rtc_goldfish_mmio_read s now d offset n).data = List.replicate n 0 ++ d.drop n := by
    intro d n
    unfold rtc_goldfish_mmio_read
    simp only [RTC_TIME_LOW, RTC_TIME_HIGH, RTC_ALARM_LOW, RTC_ALARM_HIGH, RTC_IRQ_ENABLED,
      RTC_ALARM_STATUS]
    rw [if_neg h0, if_neg h4, if_neg h8, if_neg hC, if_neg h10, if_neg h18]
    rfl
  refine ⟨hd data size, ?_, ?_, ?_⟩
  · rw [hd data size, List.take_left']
    exact List.length_replicate size 0
  · rw [hd]
    have hl : (List.take 4 data).length ≤ 4 := by
      rw [List.length_take]
      exact Nat.min_le_left 4 _
    rw [List.drop_eq_nil_of_le hl]
    rfl
  · unfold read_reg
    rw [hd]
    rfl

/-- Instances of C9: reads at ALARM_CLEAR (`0x14`), IRQ_CLEAR (`0x1C`) and the
unaligned offset `0x0A`. -/
theorem C9_read_without_register_witness :
    (rtc_goldfish_mmio_read ⟨some 7, 5, 1, 2, true, true⟩ 1700000000 [1, 2, 3, 4]
      RTC_ALARM_CLEAR 4).data = [0, 0, 0, 0] ∧
    (rtc_goldfish_mmio_read ⟨some 7, 5, 1, 2, true, true⟩ 1700000000 [1, 2, 3, 4]
      RTC_IRQ_CLEAR 4).data = [0, 0, 0, 0] ∧
    read_reg ⟨some 7, 5, 1, 2, true, true⟩ 1700000000 0x0A = 0 :=
  ⟨(C9_read_without_register ⟨some 7, 5, 1, 2, true, true⟩ 1700000000 [1, 2, 3, 4]
      RTC_ALARM_CLEAR 4 (by decide) (by decide) (by decide) (by decide) (by decide)
      (by decide)).1,
    (C9_read_without_register ⟨some 7, 5, 1, 2, true, true⟩ 1700000000 [1, 2, 3, 4]
      RTC_IRQ_CLEAR 4 (by decide) (by decide) (by decide) (by decide) (by decide)
      (by decide)).1,
    (C9_read_without_register ⟨some 7, 5, 1, 2, true, true⟩ 1700000000 [] 0x0A 4
      (by decide) (by decide) (by decide) (by decide) (by decide) (by decide)).2.2.2⟩

/-! ## C10: frame of a write -/

/-- Claim C10: for every state, offset, buffer and host time, a write leaves
`plic` and `irq` as they were, leaves `alarm_low` unchanged unless the offset is
`0x08`, `alarm_high` unless it is `0x0C` and `irq_enabled` unless it is `0x10`;
and a write to any offset other than these three still runs the alarm-evaluation
rule on `alarm_enabled` (taken as cleared first when the offset is `0x14`): it
asserts and clears the flag when the rule fires, and sets the flag otherwise. -/
theorem C10_write_frame (s : rtc_goldfish_data) (now : Int) (data : List Nat)
    (offset size : Nat) :
    (rtc_goldfish_mmio_write s now data offset size).rtc.plic = s.plic ∧
    (rtc_goldfish_mmio_write s now data offset size).rtc.irq = s.irq ∧
    (offset ≠ 0x08 →
      (rtc_goldfish_mmio_write s now data offset size).rtc.alarm_low = s.alarm_low) ∧
    (offset ≠ 0x0C →
      (rtc_goldfish_mmio_write s now data offset size).rtc.alarm_high = s.alarm_high) ∧
    (offset ≠ 0x10 →
      (rtc_goldfish_mmio_write s now data offset size).rtc.irq_enabled = s.irq_enabled) ∧
    (offset ≠ 0x08 → offset ≠ 0x0C → offset ≠ 0x10 →
      ((offset ≠ 0x14 ∧ s.alarm_enabled = true ∧ s.irq_enabled = true ∧
          timer64 now ≤ s.alarm_low ||| ((s.alarm_high <<< 32) % 2 ^ 64)) →
        (rtc_goldfish_mmio_write s now data offset size).irqs = spec_assert s ∧
        (rtc_goldfish_mmio_write s now data offset size).rtc.alarm_enabled = false) ∧
      (¬ (offset ≠ 0x14 ∧ s.alarm_enabled = true ∧ s.irq_enabled = true ∧
          timer64 now ≤ s.alarm_low ||| ((s.alarm_high <<< 32) % 2 ^ 64)) →
        (rtc_goldfish_mmio_write s now data offset size).irqs = [] ∧
        (rtc_goldfish_mmio_write s now data offset size).rtc.alarm_enabled = true)) := by
  obtain ⟨f1, f2, f3, f4, f5⟩ := write_fields s now data offset size
  refine ⟨f1, f2, ?_, ?_, ?_, ?_⟩
  · intro h
    rw [f3]
    unfold spec_write_update
    rw [if_neg h]
    split_ifs <;> rfl
  · intro h
    rw [f4]
    unfold spec_write_update
    rw [if_neg h]
    split_ifs <;> rfl
  · intro h
    rw [f5]
    unfold spec_write_update
    rw [if_neg h]
    split_ifs <;> rfl
  · intro h8 hC h10
    by_cases h14 : offset = 0x14
    · subst h14
      obtain ⟨hi, ha⟩ := write_unarmed s now data 0x14 size (Or.inr rfl)
      exact ⟨fun hf => absurd rfl hf.1, fun _ => ⟨hi, ha⟩⟩
    · have hu : spec_write_update s offset (read_uint32_le data) = s := by
        unfold spec_write_update
        rw [if_neg h8, if_neg hC, if_neg h10, if_neg h14]
      rw [write_eq, hu]
      by_cases hf : s.alarm_enabled = true ∧ s.irq_enabled = true ∧
          timer64 now ≤ s.alarm_low ||| ((s.alarm_high <<< 32) % 2 ^ 64)
      · rw [if_pos hf]
        exact ⟨fun _ => ⟨rfl, rfl⟩, fun hn => absurd ⟨h14, hf⟩ hn⟩
      · rw [if_neg hf]
        exact ⟨fun hp => absurd hp.2 hf, fun _ => ⟨rfl, rfl⟩⟩

/-! ## C11: no controller handle -/

/-- Claim C11: for every state whose `plic` is `NULL` and every write, no call of
`plic_send_irq` is made and `plic` stays `NULL`, and the resulting `alarm_low`,
`alarm_high`, `irq_enabled` and `alarm_enabled` (and `irq`) are those the same
write at the same host time produces on the state that differs only in having a
handle `h` attached. -/
theorem C11_no_handle_no_call (s : rtc_goldfish_data) (now : Int) (data : List Nat)
    (offset size h : Nat) (hp : s.plic = none) :
    (rtc_goldfish_mmio_write s now data offset size).irqs = [] ∧
    (rtc_goldfish_mmio_write s now data offset size).rtc.plic = none ∧
    (rtc_goldfish_mmio_write s now data offset size).rtc.irq =
      (rtc_goldfish_mmio_write { s with plic := some h } now data offset size).rtc.irq ∧
    (rtc_goldfish_mmio_write s now data offset size).rtc.alarm_low =
      (rtc_goldfish_mmio_write { s with plic := some h } now data offset size).rtc.alarm_low ∧
    (rtc_goldfish_mmio_write s now data offset size).rtc.alarm_high =
      (rtc_goldfish_mmio_write { s with plic := some h } now data offset size).rtc.alarm_high ∧
    (rtc_goldfish_mmio_write s now data offset size).rtc.irq_enabled =
      (rtc_goldfish_mmio_write { s with plic := some h } now data offset size).rtc.irq_enabled ∧
    (rtc_goldfish_mmio_write s now data offset size).rtc.alarm_enabled =
      (rtc_goldfish_mmio_write { s with plic := some h } now data offset size).rtc.alarm_enabled
    := by
  have hu : spec_write_update { s with plic := some h } offset (read_uint32_le data) =
      { spec_write_update s offset (read_uint32_le data) with plic := some h } := by
    unfold spec_write_update
    split_ifs <;> rfl
  have hn : spec_assert s = [] := by
    unfold spec_assert
    rw [hp]
  have hf := write_fields s now data offset size
  refine ⟨?_, by rw [hf.1, hp], ?_⟩
  · rcases write_cases s now data offset size with ⟨hi, _⟩ | ⟨hi, _⟩
    · rw [hi, hn]
    · exact hi
  · rw [write_eq s, write_eq { s with plic := some h }, hu]
    split_ifs <;> exact ⟨rfl, rfl, rfl, rfl, rfl⟩

/-- Instance of C11: an armed device without a handle, written at `0x1C` at host
second 1700000000, fires without a call and clears the flag, as the device with
handle 7 does. -/
theorem C11_no_handle_no_call_witness :
    (rtc_goldfish_mmio_write ⟨none, 5, 0xFFFFFFFF, 0xFFFFFFFF, true, true⟩ 1700000000
      (uint32_le_bytes 0) RTC_IRQ_CLEAR 4).irqs = [] ∧
    (rtc_goldfish_mmio_write ⟨some 7, 5, 0xFFFFFFFF, 0xFFFFFFFF, true, true⟩ 1700000000
      (uint32_le_bytes 0) RTC_IRQ_CLEAR 4).irqs = [(7, 5)] ∧
    (rtc_goldfish_mmio_write ⟨none, 5, 0xFFFFFFFF, 0xFFFFFFFF, true, true⟩ 1700000000
      (uint32_le_bytes 0) RTC_IRQ_CLEAR 4).rtc.alarm_enabled =
    (rtc_goldfish_mmio_write ⟨some 7, 5, 0xFFFFFFFF, 0xFFFFFFFF, true, true⟩ 1700000000
      (uint32_le_bytes 0) RTC_IRQ_CLEAR 4).rtc.alarm_enabled :=
  ⟨(C11_no_handle_no_call ⟨none, 5, 0xFFFFFFFF, 0xFFFFFFFF, true, true⟩ 1700000000
      (uint32_le_bytes 0) RTC_IRQ_CLEAR 4 7 rfl).1, by decide,
    (C11_no_handle_no_call ⟨none, 5, 0xFFFFFFFF, 0xFFFFFFFF, true, true⟩ 1700000000
      (uint32_le_bytes 0) RTC_IRQ_CLEAR 4 7 rfl).2.2.2.2.2.2⟩

/-! ## C12: initial state -/

/-- Counterexample to C12 as stated: at the base address `0xFFFFFFFFFFFFFFF0`, a
value of `paddr_t`, the sum `base_addr + RTC_REG_SIZE` wraps, so the registered
end is `0x10`, not the base address plus `0x20`, and the base address itself is
not in the registered range. -/
theorem C12_counterexample :
    (0xFFFFFFFFFFFFFFF0 : Nat) < 2 ^ 64 ∧
    (rtc_goldfish_init 0xFFFFFFFFFFFFFFF0 (some 7) 5).end_addr = 0x10 ∧
    ¬ ((rtc_goldfish_init 0xFFFFFFFFFFFFFFF0 (some 7) 5).end_addr = 0xFFFFFFFFFFFFFFF0 + 0x20) ∧
    ¬ ((rtc_goldfish_init 0xFFFFFFFFFFFFFFF0 (some 7) 5).begin_addr ≤ 0xFFFFFFFFFFFFFFF0 ∧
      0xFFFFFFFFFFFFFFF0 < (rtc_goldfish_init 0xFFFFFFFFFFFFFFF0 (some 7) 5).end_addr) := by
  decide

/-- Claim C12 (amended): for every base address, controller handle and IRQ number,
the state created by `rtc_goldfish_init` has `plic` and `irq` equal to the
arguments and `alarm_low = 0`, `alarm_high = 0`, `irq_enabled = false`,
`alarm_enabled = false`, so that before any write the reads of ALARM_LOW,
ALARM_HIGH, IRQ_ENABLED and ALARM_STATUS return 0 at every host time; the minimum
and maximum access width are 4; the registered region begins at the base address
and ends at the base address plus `0x20` taken modulo `2 ^ 64`. For every base
address with `base_addr + 0x20 < 2 ^ 64` the end is the base address plus `0x20`
and the region holds exactly the addresses `base_addr + off` with `off < 0x20`. -/
theorem C12_initial_state (base_addr : Nat) (intc_data : Option Nat) (irq : Nat) :
    (rtc_goldfish_init base_addr intc_data irq).data
      = ⟨intc_data, irq, 0, 0, false, false⟩ ∧
    (∀ now : Int,
      read_reg (rtc_goldfish_init base_addr intc_data irq).data now RTC_ALARM_LOW = 0 ∧
      read_reg (rtc_goldfish_init base_addr intc_data irq).data now RTC_ALARM_HIGH = 0 ∧
      read_reg (rtc_goldfish_init base_addr intc_data irq).data now RTC_IRQ_ENABLED = 0 ∧
      read_reg (rtc_goldfish_init base_addr intc_data irq).data now RTC_ALARM_STATUS = 0) ∧
    (rtc_goldfish_init base_addr intc_data irq).begin_addr = base_addr ∧
    (rtc_goldfish_init base_addr intc_data irq).end_addr = (base_addr + 0x20) % 2 ^ 64 ∧
    (base_addr + 0x20 < 2 ^ 64 →
      (rtc_goldfish_init base_addr intc_data irq).end_addr = base_addr + 0x20 ∧
      ∀ a : Nat, ((rtc_goldfish_init base_addr intc_data irq).begin_addr ≤ a ∧
          a < (rtc_goldfish_init base_addr intc_data irq).end_addr) ↔
        ∃ off, off < 0x20 ∧ a = base_addr + off) ∧
    (rtc_goldfish_init base_addr intc_data irq).min_op_size = 4 ∧
    (rtc_goldfish_init base_addr intc_data irq).max_op_size = 4 := by
  refine ⟨rfl, fun now => ?_, rfl, rfl, fun hb => ?_, rfl, rfl⟩
  · rw [read_reg_alarm_low, read_reg_alarm_high, read_reg_irq_enabled, read_reg_alarm_status]
    exact ⟨rfl, rfl, rfl, rfl⟩
  · have he : (rtc_goldfish_init base_addr intc_data irq).end_addr = base_addr + 0x20 := by
      simp only [rtc_goldfish_init, RTC_REG_SIZE, PADDR_BITS]
      exact Nat.mod_eq_of_lt hb
    have hbeg : (rtc_goldfish_init base_addr intc_data irq).begin_addr = base_addr := rfl
    refine ⟨he, fun a => ?_⟩
    rw [he, hbeg]
    constructor
    · rintro ⟨h1, h2⟩
      exact ⟨a - base_addr, by omega, by omega⟩
    · rintro ⟨off, h1, rfl⟩
      omega

/-- Instance of the amended C12 at the base address `0x101000`: the region ends at
`0x101020`, and `0x10101C` is the address at offset `0x1C` in it. -/
theorem C12_initial_state_witness :
    (0x101000 : Nat) + 0x20 < 2 ^ 64 ∧
    (rtc_goldfish_init 0x101000 (some 7) 5).end_addr = 0x101000 + 0x20 ∧
    (((rtc_goldfish_init 0x101000 (some 7) 5).begin_addr ≤ 0x10101C ∧
        0x10101C < (rtc_goldfish_init 0x101000 (some 7) 5).end_addr) ↔
      ∃ off, off < 0x20 ∧ 0x10101C = 0x101000 + off) :=
  ⟨by decide, ((C12_initial_state 0x101000 (some 7) 5).2.2.2.2.1 (by decide)).1,
    ((C12_initial_state 0x101000 (some 7) 5).2.2.2.2.1 (by decide)).2 0x10101C⟩

/-! ## C13: reads do not change the device -/

/-- Claim C13: for every state, offset, buffer, size and host time, the state after
a read is the state before it and no call of `plic_send_irq` is made; hence two
reads of ALARM_LOW, ALARM_HIGH, IRQ_ENABLED or ALARM_STATUS with no write in
between, at any two host times, return the same value. -/
theorem C13_read_keeps_state (s : rtc_goldfish_data) (now now1 : Int) (data data1 : List Nat)
    (offset size : Nat) :
    (rtc_goldfish_mmio_read s now data offset size).rtc = s ∧
    (rtc_goldfish_mmio_read s now data offset size).irqs = [] ∧
    ((offset = 0x08 ∨ offset = 0x0C ∨ offset = 0x10 ∨ offset = 0x18) →
      read_uint32_le (rtc_goldfish_mmio_read
          (rtc_goldfish_mmio_read s now data offset size).rtc now1 data1 offset size).data
        = read_uint32_le (rtc_goldfish_mmio_read s now data offset size).data) := by
  refine ⟨rfl, rfl, ?_⟩
  intro h
  have hs : (rtc_goldfish_mmio_read s now data offset size).rtc = s := rfl
  rw [hs]
  unfold rtc_goldfish_mmio_read
  simp only [RTC_TIME_LOW, RTC_TIME_HIGH, RTC_ALARM_LOW, RTC_ALARM_HIGH, RTC_IRQ_ENABLED,
    RTC_ALARM_STATUS]
  rcases h with h | h | h | h <;> subst h <;> norm_num [read_write_uint32_le]

/-! ## C14: accesses never fail -/

/-- Claim C14: for every state, offset (defined, undefined or beyond `0x20`),
buffer, size and host time, `rtc_goldfish_mmio_read` and
`rtc_goldfish_mmio_write` both return `true`. -/
theorem C14_access_returns_true (s : rtc_goldfish_data) (now : Int) (data : List Nat)
    (offset size : Nat) :
    (rtc_goldfish_mmio_read s now data offset size).ret = true ∧
    (rtc_goldfish_mmio_write s now data offset size).ret = true := by
  refine ⟨rfl, ?_⟩
  rw [write_eq]
  split_ifs <;> rfl

/-! ## C15: the alarm fires on the write that completes it -/

/-- Claim C15: on a freshly attached device with a controller handle, for all
32-bit `L`, `H` and host times with `L < now` at the ALARM_LOW write and
`now ≤ L | (H << 32)` at the ALARM_HIGH write, the writes IRQ_ENABLED = 1,
ALARM_LOW = L, ALARM_HIGH = H assert the interrupt exactly once, during the
ALARM_HIGH write, with the configured handle and IRQ number; ALARM_STATUS reads 0
right after that write; and the next write, at any offset with any buffer, asserts
nothing and makes ALARM_STATUS read 1. -/
theorem C15_fires_on_alarm_high (base h irq L H : Nat) (t1 t2 t3 t4 t5 t6 : Int)
    (d4 : List Nat) (off4 sz4 : Nat) (hL : L < 2 ^ 32) (hH : H < 2 ^ 32)
    (hlow : L < timer64 t2) (hfut : timer64 t3 ≤ L ||| (H <<< 32)) :
    let s0 := (rtc_goldfish_init base (some h) irq).data
    let ws : List mmio_write_op :=
      [⟨t1, uint32_le_bytes 1, RTC_IRQ_ENABLED, 4⟩, ⟨t2, uint32_le_bytes L, RTC_ALARM_LOW, 4⟩,
       ⟨t3, uint32_le_bytes H, RTC_ALARM_HIGH, 4⟩]
    (run_writes s0 ws).map (fun r => r.irqs) = [[], [], [(h, irq)]] ∧
    read_reg (final_state s0 ws) t5 RTC_ALARM_STATUS = 0 ∧
    (rtc_goldfish_mmio_write (final_state s0 ws) t4 d4 off4 sz4).irqs = [] ∧
    read_reg (rtc_goldfish_mmio_write (final_state s0 ws) t4 d4 off4 sz4).rtc t6
      RTC_ALARM_STATUS = 1 := by
  intro s0 ws
  have e1 : rtc_goldfish_mmio_write s0 t1 (uint32_le_bytes 1) RTC_IRQ_ENABLED 4 =
      ⟨true, ⟨some h, irq, 0, 0, true, true⟩, uint32_le_bytes 1, []⟩ := by
    rw [write_irq_enabled_eq _ _ _ _ (by norm_num)]
    simp [s0, rtc_goldfish_init]
  have hz : (0 <<< 32) % 2 ^ 64 = 0 := by decide
  have e2 : rtc_goldfish_mmio_write ⟨some h, irq, 0, 0, true, true⟩ t2 (uint32_le_bytes L)
      RTC_ALARM_LOW 4 = ⟨true, ⟨some h, irq, L, 0, true, true⟩, uint32_le_bytes L, []⟩ := by
    rw [write_alarm_low_eq _ _ _ _ hL, if_neg]
    rintro ⟨_, _, hle⟩
    simp only [hz, Nat.or_zero] at hle
    omega
  rw [← shiftLeft_32_mod H hH] at hfut
  have e3 : rtc_goldfish_mmio_write ⟨some h, irq, L, 0, true, true⟩ t3 (uint32_le_bytes H)
      RTC_ALARM_HIGH 4 = ⟨true, ⟨some h, irq, L, H, true, false⟩, uint32_le_bytes H,
        [(h, irq)]⟩ := by
    rw [write_alarm_high_eq _ _ _ _ hH, if_pos ⟨rfl, rfl, hfut⟩]
    rfl
  obtain ⟨hi, ha⟩ := write_unarmed ⟨some h, irq, L, H, true, false⟩ t4 d4 off4 sz4 (Or.inl rfl)
  simp only [ws, run_writes, final_state, e1, e2, e3, read_reg_alarm_status, List.map_cons,
    List.map_nil, hi, ha]
  simp

/-- Instance of C15 at host second 1700000000 with `L = H = 0xFFFFFFFF`, the next
write being one to ALARM_LOW. -/
theorem C15_fires_on_alarm_high_witness :
    (0xFFFFFFFF : Nat) < timer64 1700000000 ∧
    timer64 1700000000 ≤ 0xFFFFFFFF ||| (0xFFFFFFFF <<< 32) ∧
    (run_writes (rtc_goldfish_init 0x101000 (some 7) 5).data
        [⟨1700000000, uint32_le_bytes 1, RTC_IRQ_ENABLED, 4⟩,
         ⟨1700000000, uint32_le_bytes 0xFFFFFFFF, RTC_ALARM_LOW, 4⟩,
         ⟨1700000000, uint32_le_bytes 0xFFFFFFFF, RTC_ALARM_HIGH, 4⟩]).map (fun r => r.irqs)
      = [[], [], [(7, 5)]] :=
  ⟨by decide, by decide,
    (C15_fires_on_alarm_high 0x101000 7 5 0xFFFFFFFF 0xFFFFFFFF 1700000000 1700000000
      1700000000 1700000000 1700000000 1700000000 (uint32_le_bytes 0xFFFFFFFF) RTC_ALARM_LOW 4
      (by decide) (by decide) (by decide) (by decide)).1⟩

/-! ## C16: no two consecutive writes assert -/

/-- Claim C16: for every state, a write made while `alarm_enabled` is false, and
every write to ALARM_CLEAR, asserts no interrupt and ends with
`alarm_enabled = true`; a write that asserts an interrupt ends with
`alarm_enabled = false`; hence in every sequence of writes from every state the
write that follows an asserting write does not assert. -/
theorem C16_no_consecutive_assertions (s : rtc_goldfish_data) (now : Int) (data : List Nat)
    (offset size : Nat) (ws : List mmio_write_op) :
    ((s.alarm_enabled = false ∨ offset = RTC_ALARM_CLEAR) →
      (rtc_goldfish_mmio_write s now data offset size).irqs = [] ∧
      (rtc_goldfish_mmio_write s now data offset size).rtc.alarm_enabled = true) ∧
    ((rtc_goldfish_mmio_write s now data offset size).irqs ≠ [] →
      (rtc_goldfish_mmio_write s now data offset size).rtc.alarm_enabled = false) ∧
    (∀ (i : Nat) (r1 r2 : mmio_result), (run_writes s ws)[i]? = some r1 →
      (run_writes s ws)[i + 1]? = some r2 → r1.irqs ≠ [] → r2.irqs = []) := by
  have hb : ∀ (s1 : rtc_goldfish_data) (w : mmio_write_op),
      (rtc_goldfish_mmio_write s1 w.now w.data w.offset w.size).irqs ≠ [] →
      (rtc_goldfish_mmio_write s1 w.now w.data w.offset w.size).rtc.alarm_enabled = false := by
    intro s1 w hne
    rcases write_cases s1 w.now w.data w.offset w.size with ⟨_, ha⟩ | ⟨hi, _⟩
    · exact ha
    · exact absurd hi hne
  refine ⟨write_unarmed s now data offset size, hb s ⟨now, data, offset, size⟩, ?_⟩
  intro i r1 r2 h1 h2 hne
  obtain ⟨⟨s1, w1, hr1⟩, w2, hr2⟩ := run_writes_consecutive s ws i r1 r2 h1 h2
  have ha : r1.rtc.alarm_enabled = false := by
    rw [hr1] at hne ⊢
    exact hb s1 w1 hne
  rw [hr2]
  exact (write_unarmed r1.rtc w2.now w2.data w2.offset w2.size (Or.inl ha)).1

/-- Instance of C16: on an armed device two writes to `0x1C` at host second
1700000000; the first asserts, the second does not. -/
theorem C16_no_consecutive_assertions_witness :
    (run_writes ⟨some 7, 5, 0xFFFFFFFF, 0xFFFFFFFF, true, true⟩
      [⟨1700000000, uint32_le_bytes 0, RTC_IRQ_CLEAR, 4⟩,
       ⟨1700000000, uint32_le_bytes 0, RTC_IRQ_CLEAR, 4⟩]).map (fun r => r.irqs)
      = [[(7, 5)], []] ∧
    ∀ r1 r2 : mmio_result,
      (run_writes ⟨some 7, 5, 0xFFFFFFFF, 0xFFFFFFFF, true, true⟩
        [⟨1700000000, uint32_le_bytes 0, RTC_IRQ_CLEAR, 4⟩,
         ⟨1700000000, uint32_le_bytes 0, RTC_IRQ_CLEAR, 4⟩])[0]? = some r1 →
      (run_writes ⟨some 7, 5, 0xFFFFFFFF, 0xFFFFFFFF, true, true⟩
        [⟨1700000000, uint32_le_bytes 0, RTC_IRQ_CLEAR, 4⟩,
         ⟨1700000000, uint32_le_bytes 0, RTC_IRQ_CLEAR, 4⟩])[1]? = some r2 →
      r1.irqs ≠ [] → r2.irqs = [] :=
  ⟨by decide,
    (C16_no_consecutive_assertions ⟨some 7, 5, 0xFFFFFFFF, 0xFFFFFFFF, true, true⟩ 1700000000
      (uint32_le_bytes 0) RTC_IRQ_CLEAR 4
      [⟨1700000000, uint32_le_bytes 0, RTC_IRQ_CLEAR, 4⟩,
       ⟨1700000000, uint32_le_bytes 0, RTC_IRQ_CLEAR, 4⟩]).2.2 0⟩

/-! ## C17: armed alarm in the future -/

/-- Claim C17: for every state (with 32-bit fields) with a handle `h` attached and
`irq_enabled = true`, with `alarm = alarm_low | (alarm_high << 32)`, and every
sequence of `n` writes to offsets other than `0x08`, `0x0C`, `0x10` and `0x14`
made at host times that all satisfy `now ≤ alarm`: after `k ≤ n` writes
`alarm_enabled` is the starting value when `k` is even and its negation when `k`
is odd (it flips on each write), every call carries `h` and the configured IRQ
number, and the number of calls is `(n + 1) / 2` when `alarm_enabled` is true at
the start and `n / 2` when it is false. -/
theorem C17_armed_alternates (s : rtc_goldfish_data) (h : Nat) (ws : List mmio_write_op)
    (hs : rtc_wf s) (hp : s.plic = some h) (hen : s.irq_enabled = true)
    (hws : ∀ w ∈ ws, (w.offset ≠ 0x08 ∧ w.offset ≠ 0x0C ∧ w.offset ≠ 0x10 ∧ w.offset ≠ 0x14) ∧
      timer64 w.now ≤ s.alarm_low ||| (s.alarm_high <<< 32)) :
    (∀ k, k ≤ ws.length →
      (final_state s (ws.take k)).alarm_enabled =
        (if k % 2 = 0 then s.alarm_enabled else !s.alarm_enabled)) ∧
    all_irqs (run_writes s ws) = List.replicate (all_irqs (run_writes s ws)).length (h, s.irq) ∧
    (s.alarm_enabled = true → (all_irqs (run_writes s ws)).length = (ws.length + 1) / 2) ∧
    (s.alarm_enabled = false → (all_irqs (run_writes s ws)).length = ws.length / 2) := by
  obtain ⟨p, irq, lo, hi, en, b⟩ := s
  simp only at hp hen hws
  subst hp hen
  have hmod : (hi <<< 32) % 2 ^ 64 = hi <<< 32 := shiftLeft_32_mod hi hs.2.2
  rw [← hmod] at hws
  obtain ⟨hall, _⟩ := armed_run h irq lo hi ws hws b
  refine ⟨?_, ?_, ?_, ?_⟩
  · intro k hk
    have hlen : (ws.take k).length = k := by
      rw [List.length_take]
      exact Nat.min_eq_left hk
    have hfin := (armed_run h irq lo hi (ws.take k)
      (fun w hw => hws w (List.mem_of_mem_take hw)) b).2
    rw [hfin, hlen]
  · rw [hall, List.length_replicate]
  · intro hb
    simp only at hb
    rw [hall, List.length_replicate, if_pos hb]
  · intro hb
    simp only at hb
    rw [hall, List.length_replicate, if_neg (by simp [hb])]

/-- Instance of C17: three writes to `0x1C` at host second 1700000000 on an armed
device with the alarm at `0xFFFFFFFFFFFFFFFF` and the flag set make two calls. -/
theorem C17_armed_alternates_witness :
    (all_irqs (run_writes ⟨some 7, 5, 0xFFFFFFFF, 0xFFFFFFFF, true, true⟩
      [⟨1700000000, uint32_le_bytes 0, RTC_IRQ_CLEAR, 4⟩,
       ⟨1700000000, uint32_le_bytes 1, RTC_IRQ_CLEAR, 4⟩,
       ⟨1700000000, uint32_le_bytes 2, RTC_IRQ_CLEAR, 4⟩])).length = 2 :=
  (C17_armed_alternates ⟨some 7, 5, 0xFFFFFFFF, 0xFFFFFFFF, true, true⟩ 7
    [⟨1700000000, uint32_le_bytes 0, RTC_IRQ_CLEAR, 4⟩,
     ⟨1700000000, uint32_le_bytes 1, RTC_IRQ_CLEAR, 4⟩,
     ⟨1700000000, uint32_le_bytes 2, RTC_IRQ_CLEAR, 4⟩]
    (by decide) rfl rfl (by decide)).2.2.1 rfl

end RtcGoldfish
